import Mathlib

/-!
Shallow embedding of the usage-determination core of kubectl-reap.

The Go sources embedded here are the kubectl-reap variants of
`pkg/determiner/determiner.go`, `pkg/resource/resource.go`,
`pkg/resource/client.go` and the PersistentVolume matcher
(`CheckVolumeSatisfyClaim`).  Kubernetes API objects are modelled as plain
structures holding exactly the fields the code reads; Go `nil`-able pointers
become `Option`, Go maps used as sets become lists queried with `contains`
(same membership semantics), and resource quantities become their integer
`Value()`.  Fallible Go `(T, error)` results become `Except String T` or
`T × Option String` pairs, mirroring every return site.
-/

namespace KubectlReap

/-! ## Kubernetes core data model (fields read by the code) -/

structure LocalObjectReference where
  name : String
deriving DecidableEq

structure ObjectReference where
  name : String
deriving DecidableEq

structure ConfigMapEnvSource where
  name : String
deriving DecidableEq

structure SecretEnvSource where
  name : String
deriving DecidableEq

structure EnvFromSource where
  configMapRef : Option ConfigMapEnvSource
  secretRef : Option SecretEnvSource
deriving DecidableEq

structure ConfigMapKeySelector where
  name : String
deriving DecidableEq

structure SecretKeySelector where
  name : String
deriving DecidableEq

structure EnvVarSource where
  configMapKeyRef : Option ConfigMapKeySelector
  secretKeyRef : Option SecretKeySelector
deriving DecidableEq

structure EnvVar where
  name : String
  valueFrom : Option EnvVarSource
deriving DecidableEq

structure Container where
  name : String
  env : List EnvVar
  envFrom : List EnvFromSource
deriving DecidableEq

structure ConfigMapVolumeSource where
  name : String
deriving DecidableEq

structure SecretVolumeSource where
  secretName : String
deriving DecidableEq

structure ConfigMapProjection where
  name : String
deriving DecidableEq

structure SecretProjection where
  name : String
deriving DecidableEq

structure VolumeProjection where
  configMap : Option ConfigMapProjection
  secret : Option SecretProjection
deriving DecidableEq

structure ProjectedVolumeSource where
  sources : List VolumeProjection
deriving DecidableEq

structure PersistentVolumeClaimVolumeSource where
  claimName : String
deriving DecidableEq

structure Volume where
  name : String
  configMap : Option ConfigMapVolumeSource
  secret : Option SecretVolumeSource
  projected : Option ProjectedVolumeSource
  persistentVolumeClaim : Option PersistentVolumeClaimVolumeSource
deriving DecidableEq

structure PodSpec where
  initContainers : List Container
  containers : List Container
  volumes : List Volume
  imagePullSecrets : List LocalObjectReference
deriving DecidableEq

structure PodStatus where
  phase : String
deriving DecidableEq

structure Pod where
  name : String
  labels : List (String × String)
  spec : PodSpec
  status : PodStatus
deriving DecidableEq

structure PodTemplateSpec where
  spec : PodSpec
deriving DecidableEq

structure ReplicaSetSpec where
  template : PodTemplateSpec
deriving DecidableEq

structure ReplicaSet where
  name : String
  spec : ReplicaSetSpec
deriving DecidableEq

structure ServiceAccount where
  name : String
  secrets : List ObjectReference
deriving DecidableEq

/-- Resource quantities are modelled by their integer `Value()`; a Go
`ResourceList` map is an association list with absent keys reading as the zero
quantity. -/
def resourceStorage : String := "storage"

def podRunning : String := "Running"

def persistentVolumeFilesystem : String := "Filesystem"

/-- Key of the legacy beta storage-class annotation
`volume.beta.kubernetes.io/storage-class`. -/
def betaStorageClassKey : String := "volume.beta.kubernetes.io/storage-class"

structure PersistentVolumeSpec where
  capacity : List (String × Int)
  storageClassName : String
  volumeMode : Option String
  accessModes : List String
deriving DecidableEq

structure PersistentVolume where
  name : String
  annotations : List (String × String)
  spec : PersistentVolumeSpec
deriving DecidableEq

structure ResourceRequirements where
  requests : List (String × Int)
deriving DecidableEq

structure PersistentVolumeClaimSpec where
  storageClassName : Option String
  volumeMode : Option String
  accessModes : List String
  resources : ResourceRequirements
deriving DecidableEq

structure PersistentVolumeClaim where
  name : String
  annotations : List (String × String)
  spec : PersistentVolumeClaimSpec
deriving DecidableEq

/-! ## Capacity/Policy matcher (`pkg/resource` CheckVolumeSatisfyClaim) -/

/-- Embeds `checkCapacitySatisfyRequest`: the volume's storage capacity value
must be strictly greater than the claim's requested storage value. -/
def checkCapacitySatisfyRequest (volume : PersistentVolume) (claim : PersistentVolumeClaim) : Bool :=
  let volumeSize := (volume.spec.capacity.lookup resourceStorage).getD 0
  let requestedSize := (claim.spec.resources.requests.lookup resourceStorage).getD 0
  volumeSize > requestedSize

/-- Embeds `checkStorageClassMatch`: the beta annotation is preferred on both
sides, the claim falls back to its typed `StorageClassName` pointer and then
to the empty string, the volume falls back to its plain `StorageClassName`
field. -/
def checkStorageClassMatch (volume : PersistentVolume) (claim : PersistentVolumeClaim) : Bool :=
  let requestedClass :=
    match claim.annotations.lookup betaStorageClassKey with
    | some cls => cls
    | none =>
      match claim.spec.storageClassName with
      | some cls => cls
      | none => ""
  let pvVolumeClass :=
    match volume.annotations.lookup betaStorageClassKey with
    | some cls => cls
    | none => volume.spec.storageClassName
  requestedClass == pvVolumeClass

/-- Embeds `checkVolumeModeMatch`: both sides default a nil volume mode to
`Filesystem`. -/
def checkVolumeModeMatch (volume : PersistentVolume) (claim : PersistentVolumeClaim) : Bool :=
  let requestedVolumeMode := claim.spec.volumeMode.getD persistentVolumeFilesystem
  let pvVolumeMode := volume.spec.volumeMode.getD persistentVolumeFilesystem
  requestedVolumeMode == pvVolumeMode

/-- Embeds `checkAccessModesMatch`: every access mode requested by the claim
must be among the volume's supported access modes. -/
def checkAccessModesMatch (volume : PersistentVolume) (claim : PersistentVolumeClaim) : Bool :=
  claim.spec.accessModes.all fun mode => volume.spec.accessModes.contains mode

/-- Embeds `CheckVolumeSatisfyClaim`: the four sub-checks in source order,
each failing one short-circuiting to `false`. -/
def CheckVolumeSatisfyClaim (volume : PersistentVolume) (claim : PersistentVolumeClaim) : Bool :=
  if !checkCapacitySatisfyRequest volume claim then false
  else if !checkStorageClassMatch volume claim then false
  else if !checkVolumeModeMatch volume claim then false
  else if !checkAccessModesMatch volume claim then false
  else true

/-! ## Label selectors -/

structure LabelSelectorRequirement where
  key : String
  op : String
  values : List String
deriving DecidableEq

structure LabelSelector where
  matchLabels : List (String × String)
  matchExpressions : List LabelSelectorRequirement
deriving DecidableEq

/-- Result of converting a `LabelSelector`: either the selector that matches
nothing, or a list of validated requirements that must all hold. -/
inductive Selector where
  | nothing
  | requirements (reqs : List LabelSelectorRequirement)
deriving DecidableEq

/-- Modelled from the spec: validation done by the standard Kubernetes
requirement constructor (`labels.NewRequirement`), which is library code
outside this repository.  Operators `In` and `NotIn` need a nonempty values
list, `Exists` and `DoesNotExist` need an empty one, and any other operator
string is a conversion error. -/
def validateRequirement (req : LabelSelectorRequirement) : Except String LabelSelectorRequirement :=
  if req.op == "In" || req.op == "NotIn" then
    if req.values.isEmpty then Except.error "values must be nonempty for in and notin operators"
    else Except.ok req
  else if req.op == "Exists" || req.op == "DoesNotExist" then
    if req.values.isEmpty then Except.ok req
    else Except.error "values must be empty for exists and does not exist operators"
  else Except.error (req.op ++ " is not a valid label selector operator")

def validateRequirements : List LabelSelectorRequirement → Except String (List LabelSelectorRequirement)
  | [] => Except.ok []
  | req :: rest =>
    match validateRequirement req with
    | Except.error e => Except.error e
    | Except.ok r =>
      match validateRequirements rest with
      | Except.error e => Except.error e
      | Except.ok rs => Except.ok (r :: rs)

/-- Modelled from the spec: the standard conversion
`metav1.LabelSelectorAsSelector` (library code outside this repository),
supporting both the equality-match map form and the expression form.  A nil
selector selects nothing, an empty selector selects everything, each
`matchLabels` entry becomes a single-value `In` requirement, and each
`matchExpressions` entry is validated; a malformed entry is a hard error. -/
def labelSelectorAsSelector (ps : Option LabelSelector) : Except String Selector :=
  match ps with
  | none => Except.ok Selector.nothing
  | some sel =>
    if sel.matchLabels.isEmpty && sel.matchExpressions.isEmpty then
      Except.ok (Selector.requirements [])
    else
      let mapReqs := sel.matchLabels.map fun kv => LabelSelectorRequirement.mk kv.1 "In" [kv.2]
      match validateRequirements (mapReqs ++ sel.matchExpressions) with
      | Except.error e => Except.error e
      | Except.ok reqs => Except.ok (Selector.requirements reqs)

/-- Modelled from the spec: standard Kubernetes requirement matching
(`labels.Requirement.Matches`, library code outside this repository) over a
pod label set. -/
def requirementMatches (lbls : List (String × String)) (req : LabelSelectorRequirement) : Bool :=
  if req.op == "In" then
    match lbls.lookup req.key with
    | some v => req.values.contains v
    | none => false
  else if req.op == "NotIn" then
    match lbls.lookup req.key with
    | some v => !(req.values.contains v)
    | none => true
  else if req.op == "Exists" then (lbls.lookup req.key).isSome
  else if req.op == "DoesNotExist" then (lbls.lookup req.key).isNone
  else false

/-- Modelled from the spec: a converted selector matches a label set when it
is not the match-nothing selector and all its requirements match. -/
def selectorMatches (sel : Selector) (lbls : List (String × String)) : Bool :=
  match sel with
  | Selector.nothing => false
  | Selector.requirements reqs => reqs.all (requirementMatches lbls)

/-! ## Remaining candidate payload types -/

structure JobStatus where
  completionTime : Option Int
deriving DecidableEq

structure Job where
  name : String
  status : JobStatus
deriving DecidableEq

structure PodDisruptionBudgetSpec where
  selector : Option LabelSelector
deriving DecidableEq

structure PodDisruptionBudget where
  name : String
  spec : PodDisruptionBudgetSpec
deriving DecidableEq

structure CrossVersionObjectReference where
  apiVersion : String
  kind : String
  name : String
deriving DecidableEq

structure HorizontalPodAutoscalerSpec where
  scaleTargetRef : CrossVersionObjectReference
deriving DecidableEq

structure HorizontalPodAutoscaler where
  name : String
  spec : HorizontalPodAutoscalerSpec
deriving DecidableEq

/-! ## resource package: kind constants, object conversion, client -/

def KindPod : String := "Pod"
def KindConfigMap : String := "ConfigMap"
def KindSecret : String := "Secret"
def KindPersistentVolume : String := "PersistentVolume"
def KindPersistentVolumeClaim : String := "PersistentVolumeClaim"
def KindJob : String := "Job"
def KindPodDisruptionBudget : String := "PodDisruptionBudget"
def KindHorizontalPodAutoscaler : String := "HorizontalPodAutoscaler"

/-- A candidate object payload.  The Go code carries `runtime.Object` and
decodes it per kind through the unstructured converter; here the payload is a
sum over the structured types the determiner decodes into, with `other`
standing for any payload that converts to none of them. -/
inductive Object where
  | pod (pod : Pod)
  | persistentVolume (volume : PersistentVolume)
  | job (job : Job)
  | podDisruptionBudget (pdb : PodDisruptionBudget)
  | horizontalPodAutoscaler (hpa : HorizontalPodAutoscaler)
  | other
deriving DecidableEq

/-- Embeds `resource.ObjectToPod`: succeeds exactly when the payload converts
to a Pod; the library unstructured converter is modelled as precise shape
matching. -/
def ObjectToPod : Object → Except String Pod
  | Object.pod p => Except.ok p
  | _ => Except.error "unable to convert object to Pod"

def ObjectToPersistentVolume : Object → Except String PersistentVolume
  | Object.persistentVolume v => Except.ok v
  | _ => Except.error "unable to convert object to PersistentVolume"

/-- Modelled from the spec: `resource.ObjectToJob` is present in the
repository (the deciders and tests call it) but its file is not under the
provided sources; it is modelled like the other `ObjectTo` converters. -/
def ObjectToJob : Object → Except String Job
  | Object.job j => Except.ok j
  | _ => Except.error "unable to convert object to Job"

def ObjectToPodDisruptionBudget : Object → Except String PodDisruptionBudget
  | Object.podDisruptionBudget p => Except.ok p
  | _ => Except.error "unable to convert object to PodDisruptionBudget"

def ObjectToHorizontalPodAutoscaler : Object → Except String HorizontalPodAutoscaler
  | Object.horizontalPodAutoscaler h => Except.ok h
  | _ => Except.error "unable to convert object to HorizontalPodAutoscaler"

structure GroupVersion where
  group : String
  version : String
deriving DecidableEq

/-- Outcome of one dynamic-client get call as the Go error inspection sees
it: success, an error for which `apierrors.IsNotFound` holds, or any other
error. -/
inductive APIResult (α : Type) where
  | ok (val : α)
  | notFound
  | err (msg : String)
deriving DecidableEq

structure Unstructured where
  apiVersion : String
  kind : String
  name : String
deriving DecidableEq

/-- Embeds `client.GetUnstructured` from `pkg/resource/client.go`: parse the
apiVersion (the parse outcome and the keyed get outcome are oracle inputs,
since both cross into library and network code), then map the get outcome so
that a not-found error becomes the nil-object success and every other error
propagates. -/
def GetUnstructured (parseGV : Except String GroupVersion)
    (dynamicGet : GroupVersion → APIResult Unstructured) : Except String (Option Unstructured) :=
  match parseGV with
  | Except.error e => Except.error e
  | Except.ok gv =>
    match dynamicGet gv with
    | APIResult.ok u => Except.ok (some u)
    | APIResult.notFound => Except.ok none
    | APIResult.err e => Except.error e

/-! ## Reference extractor (`pkg/determiner` detectUsed functions) -/

/-- ConfigMap references of one container: the `envFrom.configMapRef` loop
followed by the `env[].valueFrom.configMapKeyRef` loop. -/
def containerConfigMapRefs (c : Container) : List String :=
  (c.envFrom.filterMap fun envFrom => envFrom.configMapRef.map fun ref => ref.name) ++
  (c.env.filterMap fun env => env.valueFrom.bind fun vf => vf.configMapKeyRef.map fun ref => ref.name)

/-- ConfigMap references of one volume: the direct `configMap` source and the
`projected.sources[].configMap` entries. -/
def volumeConfigMapRefs (v : Volume) : List String :=
  (match v.configMap with
   | some cm => [cm.name]
   | none => []) ++
  (match v.projected with
   | some proj => proj.sources.filterMap fun source => source.configMap.map fun ref => ref.name
   | none => [])

/-- ConfigMap references of one pod spec: the containers loop followed by the
volumes loop, as in `detectUsedConfigMaps`.  Init containers are not
scanned. -/
def podSpecConfigMapRefs (spec : PodSpec) : List String :=
  spec.containers.flatMap containerConfigMapRefs ++ spec.volumes.flatMap volumeConfigMapRefs

/-- Embeds `detectUsedConfigMaps` (kubectl-reap variant): references from the
pods and from the ReplicaSet pod templates, collected with set-membership
semantics (the result is only ever queried through `contains`). -/
def detectUsedConfigMaps (pods : List Pod) (replicaSets : List ReplicaSet) : List String :=
  pods.flatMap (fun pod => podSpecConfigMapRefs pod.spec) ++
  replicaSets.flatMap (fun rs => podSpecConfigMapRefs rs.spec.template.spec)

/-- Secret references of one container: the `envFrom.secretRef` loop followed
by the `env[].valueFrom.secretKeyRef` loop. -/
def containerSecretRefs (c : Container) : List String :=
  (c.envFrom.filterMap fun envFrom => envFrom.secretRef.map fun ref => ref.name) ++
  (c.env.filterMap fun env => env.valueFrom.bind fun vf => vf.secretKeyRef.map fun ref => ref.name)

/-- Secret references of one volume: the direct `secret` source (by its
`secretName`) and the `projected.sources[].secret` entries. -/
def volumeSecretRefs (v : Volume) : List String :=
  (match v.secret with
   | some s => [s.secretName]
   | none => []) ++
  (match v.projected with
   | some proj => proj.sources.filterMap fun source => source.secret.map fun ref => ref.name
   | none => [])

/-- Secret references of one pod spec coming from containers and volumes
(`imagePullSecrets` is scanned at the pod level, not here).  Init containers
are not scanned. -/
def podSpecSecretRefs (spec : PodSpec) : List String :=
  spec.containers.flatMap containerSecretRefs ++ spec.volumes.flatMap volumeSecretRefs

/-- Embeds `detectUsedSecrets` (kubectl-reap variant): per pod the
`imagePullSecrets` loop then the container/volume loops, then the ReplicaSet
pod templates, then every entry of each ServiceAccount secrets list. -/
def detectUsedSecrets (pods : List Pod) (replicaSets : List ReplicaSet)
    (sas : List ServiceAccount) : List String :=
  pods.flatMap (fun pod =>
    pod.spec.imagePullSecrets.map (fun ref => ref.name) ++ podSpecSecretRefs pod.spec) ++
  replicaSets.flatMap (fun rs => podSpecSecretRefs rs.spec.template.spec) ++
  sas.flatMap (fun sa => sa.secrets.map fun ref => ref.name)

/-- Embeds `detectUsedPersistentVolumeClaims`: the `persistentVolumeClaim`
claim names of every pod volume. -/
def detectUsedPersistentVolumeClaims (pods : List Pod) : List String :=
  pods.flatMap fun pod =>
    pod.spec.volumes.filterMap fun v => v.persistentVolumeClaim.map fun ref => ref.claimName

/-! ## Usage determiner (`pkg/determiner/determiner.go`, kubectl-reap) -/

/-- The state of a constructed determiner: the three usage indices and the
collateral snapshots.  The Go string-set maps become lists queried with
`contains`. -/
structure DeterminerData where
  usedConfigMaps : List String
  usedSecrets : List String
  usedPersistentVolumeClaims : List String
  pods : List Pod
  replicaSets : List ReplicaSet
  persistentVolumeClaims : List PersistentVolumeClaim

/-- The one resource-client operation the decision function uses, as a
function of (apiVersion, kind, name, namespace). -/
def GetUnstructuredFn : Type := String → String → String → String → Except String (Option Unstructured)

/-- A `cliresource.Info` candidate: the kind string reported by its object
kind accessor, the name, the namespace, and the payload. -/
structure Info where
  kind : String
  name : String
  ns : String
  object : Object

/-- Embeds `determineUsedPodDisruptionBudget`: selector conversion failure is
wrapped as the invalid-label-selector error, otherwise true as soon as one
pod of the snapshot matches. -/
def determineUsedPodDisruptionBudget (pods : List Pod) (pdb : PodDisruptionBudget) :
    Except String Bool :=
  match labelSelectorAsSelector pdb.spec.selector with
  | Except.error e => Except.error ("invalid label selector (" ++ pdb.name ++ "): " ++ e)
  | Except.ok selector => Except.ok (pods.any fun pod => selectorMatches selector pod.labels)

/-- Embeds `determineDeletionPod`; results are `(shouldDelete, error)` pairs
exactly as the Go `(bool, error)` returns. -/
def determineDeletionPod (info : Info) : Bool × Option String :=
  match ObjectToPod info.object with
  | Except.error e => (false, some e)
  | Except.ok pod => (!(pod.status.phase == podRunning), none)

def determineDeletionConfigMap (d : DeterminerData) (info : Info) : Bool × Option String :=
  (!(d.usedConfigMaps.contains info.name), none)

def determineDeletionSecret (d : DeterminerData) (info : Info) : Bool × Option String :=
  (!(d.usedSecrets.contains info.name), none)

/-- Embeds `determineDeletionPersistentVolume`: delete only when the volume
satisfies no claim of the snapshot. -/
def determineDeletionPersistentVolume (d : DeterminerData) (info : Info) : Bool × Option String :=
  match ObjectToPersistentVolume info.object with
  | Except.error e => (false, some e)
  | Except.ok volume =>
    (!(d.persistentVolumeClaims.any fun claim => CheckVolumeSatisfyClaim volume claim), none)

def determineDeletionPersistentVolumeClaim (d : DeterminerData) (info : Info) :
    Bool × Option String :=
  (!(d.usedPersistentVolumeClaims.contains info.name), none)

/-- Embeds `determineDeletionJob`: delete exactly when the completion
timestamp is non-nil. -/
def determineDeletionJob (info : Info) : Bool × Option String :=
  match ObjectToJob info.object with
  | Except.error e => (false, some e)
  | Except.ok job => (job.status.completionTime.isSome, none)

def determineDeletionPodDisruptionBudget (d : DeterminerData) (info : Info) :
    Bool × Option String :=
  match ObjectToPodDisruptionBudget info.object with
  | Except.error e => (false, some e)
  | Except.ok pdb =>
    match determineUsedPodDisruptionBudget d.pods pdb with
    | Except.error e => (false, some e)
    | Except.ok used => (!used, none)

/-- Embeds `determineDeletionHorizontalPodAutoscaler`: one lookup of the
scale-target reference in the candidate's own namespace; delete exactly when
it reports the nil object. -/
def determineDeletionHorizontalPodAutoscaler (getU : GetUnstructuredFn) (info : Info) :
    Bool × Option String :=
  match ObjectToHorizontalPodAutoscaler info.object with
  | Except.error e => (false, some e)
  | Except.ok hpa =>
    match getU hpa.spec.scaleTargetRef.apiVersion hpa.spec.scaleTargetRef.kind
        hpa.spec.scaleTargetRef.name info.ns with
    | Except.error e => (false, some e)
    | Except.ok u => (u.isNone, none)

/-- Embeds `DetermineDeletion`: the kind switch in source order with the
unsupported-kind default. -/
def DetermineDeletion (d : DeterminerData) (getU : GetUnstructuredFn) (info : Info) :
    Bool × Option String :=
  if info.kind == KindPod then determineDeletionPod info
  else if info.kind == KindConfigMap then determineDeletionConfigMap d info
  else if info.kind == KindSecret then determineDeletionSecret d info
  else if info.kind == KindPersistentVolume then determineDeletionPersistentVolume d info
  else if info.kind == KindPersistentVolumeClaim then determineDeletionPersistentVolumeClaim d info
  else if info.kind == KindJob then determineDeletionJob info
  else if info.kind == KindPodDisruptionBudget then determineDeletionPodDisruptionBudget d info
  else if info.kind == KindHorizontalPodAutoscaler then
    determineDeletionHorizontalPodAutoscaler getU info
  else (false, some ("unsupported kind: " ++ info.kind ++ "/" ++ info.name))

/-- The determiner state produced when every collateral fetch has happened,
as `New` builds it for an invocation that requests all kinds. -/
def mkDeterminerData (pods : List Pod) (replicaSets : List ReplicaSet)
    (sas : List ServiceAccount) (pvcs : List PersistentVolumeClaim) : DeterminerData :=
  { usedConfigMaps := detectUsedConfigMaps pods replicaSets
    usedSecrets := detectUsedSecrets pods replicaSets sas
    usedPersistentVolumeClaims := detectUsedPersistentVolumeClaims pods
    pods := pods
    replicaSets := replicaSets
    persistentVolumeClaims := pvcs }

/-! ## Determiner construction (`New`) with its fetch trace -/

inductive FetchOp where
  | listPods
  | listReplicaSets
  | listPersistentVolumeClaims
  | listServiceAccounts
deriving DecidableEq

/-- The four list operations of the resource client, as the outcomes they
would return during one construction. -/
structure ListClient where
  listPodsRes : Except String (List Pod)
  listReplicaSetsRes : Except String (List ReplicaSet)
  listPersistentVolumeClaimsRes : Except String (List PersistentVolumeClaim)
  listServiceAccountsRes : Except String (List ServiceAccount)

/-- Embeds `New` (kubectl-reap variant): the reap flags are set from the
kinds seen while visiting the invocation's resources, then the conditional
fetches run in source order, aborting on the first failing fetch.  The second
component records which list operations were invoked. -/
def New (client : ListClient) (kinds : List String) :
    Except String DeterminerData × List FetchOp :=
  let reapConfigMaps := kinds.contains KindConfigMap
  let reapSecrets := kinds.contains KindSecret
  let reapPersistentVolumes := kinds.contains KindPersistentVolume
  let reapPersistentVolumeClaims := kinds.contains KindPersistentVolumeClaim
  let reapPodDisruptionBudgets := kinds.contains KindPodDisruptionBudget
  let step1 : Except String (List Pod) × List FetchOp :=
    if reapConfigMaps || reapSecrets || reapPersistentVolumeClaims || reapPodDisruptionBudgets then
      (client.listPodsRes, [FetchOp.listPods])
    else (Except.ok [], [])
  match step1 with
  | (Except.error e, trace) => (Except.error e, trace)
  | (Except.ok pods, trace1) =>
    let step2 : Except String (List ReplicaSet) × List FetchOp :=
      if reapConfigMaps || reapSecrets then
        (client.listReplicaSetsRes, [FetchOp.listReplicaSets])
      else (Except.ok [], [])
    match step2 with
    | (Except.error e, trace) => (Except.error e, trace1 ++ trace)
    | (Except.ok replicaSets, trace2) =>
      let step3 : Except String (List PersistentVolumeClaim) × List FetchOp :=
        if reapPersistentVolumes then
          (client.listPersistentVolumeClaimsRes, [FetchOp.listPersistentVolumeClaims])
        else (Except.ok [], [])
      match step3 with
      | (Except.error e, trace) => (Except.error e, trace1 ++ trace2 ++ trace)
      | (Except.ok pvcs, trace3) =>
        let usedConfigMaps :=
          if reapConfigMaps then detectUsedConfigMaps pods replicaSets else []
        let step4 : Except String (List ServiceAccount) × List FetchOp :=
          if reapSecrets then (client.listServiceAccountsRes, [FetchOp.listServiceAccounts])
          else (Except.ok [], [])
        match step4 with
        | (Except.error e, trace) => (Except.error e, trace1 ++ trace2 ++ trace3 ++ trace)
        | (Except.ok sas, trace4) =>
          let usedSecrets :=
            if reapSecrets then detectUsedSecrets pods replicaSets sas else []
          let usedPersistentVolumeClaims :=
            if reapPersistentVolumeClaims then detectUsedPersistentVolumeClaims pods else []
          (Except.ok
            { usedConfigMaps := usedConfigMaps
              usedSecrets := usedSecrets
              usedPersistentVolumeClaims := usedPersistentVolumeClaims
              pods := pods
              replicaSets := replicaSets
              persistentVolumeClaims := pvcs },
           trace1 ++ trace2 ++ trace3 ++ trace4)

/-! ## Sample objects used by concrete statements -/

/-- A PersistentVolume of the given storage capacity value, class `standard`,
default volume mode, access modes ReadWriteOnce and ReadWriteMany. -/
def pvSample (cap : Int) : PersistentVolume :=
  { name := "pv"
    annotations := []
    spec :=
      { capacity := [(resourceStorage, cap)]
        storageClassName := "standard"
        volumeMode := none
        accessModes := ["ReadWriteOnce", "ReadWriteMany"] } }

/-- A PersistentVolumeClaim requesting 1Gi (1073741824), class `standard`,
default volume mode, access mode ReadWriteOnce. -/
def pvcSampleOneGi : PersistentVolumeClaim :=
  { name := "pvc"
    annotations := []
    spec :=
      { storageClassName := some "standard"
        volumeMode := none
        accessModes := ["ReadWriteOnce"]
        resources := { requests := [(resourceStorage, 1073741824)] } } }

/-! ## Helper lemmas -/

lemma checkVolumeSatisfyClaim_eq_and (volume : PersistentVolume) (claim : PersistentVolumeClaim) :
    CheckVolumeSatisfyClaim volume claim =
      (checkCapacitySatisfyRequest volume claim && checkStorageClassMatch volume claim &&
        checkVolumeModeMatch volume claim && checkAccessModesMatch volume claim) := by
  cases hc : checkCapacitySatisfyRequest volume claim <;>
    cases hs : checkStorageClassMatch volume claim <;>
      cases hm : checkVolumeModeMatch volume claim <;>
        cases ha : checkAccessModesMatch volume claim <;>
          simp [CheckVolumeSatisfyClaim, hc, hs, hm, ha]

/-! ## Claim theorems -/

/-- C1: `CheckVolumeSatisfyClaim volume claim` returns true exactly when the
volume's storage capacity is strictly greater than the claim's requested
storage, the storage classes agree (beta annotation preferred on both sides,
the claim falling back through its typed field to the empty string), the
volume modes agree (both defaulting to Filesystem), and every access mode the
claim requests is among the volume's supported modes; in particular a 1Gi
volume does not satisfy a 1Gi claim while a 2Gi volume does. -/
theorem check_volume_satisfy_claim_characterization :
    (∀ (volume : PersistentVolume) (claim : PersistentVolumeClaim),
      CheckVolumeSatisfyClaim volume claim = true ↔
        ((volume.spec.capacity.lookup resourceStorage).getD 0 >
            (claim.spec.resources.requests.lookup resourceStorage).getD 0 ∧
          (match claim.annotations.lookup betaStorageClassKey with
            | some cls => cls
            | none =>
              match claim.spec.storageClassName with
              | some cls => cls
              | none => "") =
            (match volume.annotations.lookup betaStorageClassKey with
              | some cls => cls
              | none => volume.spec.storageClassName) ∧
          claim.spec.volumeMode.getD persistentVolumeFilesystem =
            volume.spec.volumeMode.getD persistentVolumeFilesystem ∧
          ∀ mode ∈ claim.spec.accessModes, mode ∈ volume.spec.accessModes)) ∧
    CheckVolumeSatisfyClaim (pvSample 1073741824) pvcSampleOneGi = false ∧
    CheckVolumeSatisfyClaim (pvSample 2147483648) pvcSampleOneGi = true := by
  refine ⟨?_, by decide, by decide⟩
  intro volume claim
  rw [checkVolumeSatisfyClaim_eq_and]
  simp only [Bool.and_eq_true]
  unfold checkCapacitySatisfyRequest checkStorageClassMatch checkVolumeModeMatch
    checkAccessModesMatch
  simp [and_assoc, List.all_eq_true, List.elem_iff, decide_eq_true_eq, beq_iff_eq]

/-- C3: no execution path of `DetermineDeletion` pairs shouldDelete=true with
a non-nil error; every result either carries delete=false or no error. -/
theorem determine_deletion_no_delete_on_error (d : DeterminerData) (getU : GetUnstructuredFn)
    (info : Info) :
    (DetermineDeletion d getU info).fst = false ∨ (DetermineDeletion d getU info).snd = none := by
  unfold DetermineDeletion determineDeletionPod determineDeletionConfigMap determineDeletionSecret
    determineDeletionPersistentVolume determineDeletionPersistentVolumeClaim determineDeletionJob
    determineDeletionPodDisruptionBudget determineDeletionHorizontalPodAutoscaler
    determineUsedPodDisruptionBudget
  repeat' split
  all_goals simp

/-- C7: for a Pod candidate that decodes, the decision is delete exactly when
the status phase differs from Running, and no error is returned. -/
theorem pod_rule (d : DeterminerData) (getU : GetUnstructuredFn) (name ns : String) (pod : Pod) :
    ((DetermineDeletion d getU (Info.mk KindPod name ns (Object.pod pod))).fst = true ↔
      pod.status.phase ≠ podRunning) ∧
    (DetermineDeletion d getU (Info.mk KindPod name ns (Object.pod pod))).snd = none := by
  constructor <;> simp [DetermineDeletion, determineDeletionPod, ObjectToPod, KindPod]

/-- C8: for a Job candidate that decodes, the decision is delete exactly when
the status completion timestamp is non-nil, whatever its value, and no error
is returned. -/
theorem job_rule (d : DeterminerData) (getU : GetUnstructuredFn) (name ns : String) (job : Job) :
    ((DetermineDeletion d getU (Info.mk KindJob name ns (Object.job job))).fst = true ↔
      job.status.completionTime ≠ none) ∧
    (DetermineDeletion d getU (Info.mk KindJob name ns (Object.job job))).snd = none := by
  constructor <;>
    simp [DetermineDeletion, determineDeletionJob, ObjectToJob, KindJob, KindPod, KindConfigMap,
      KindSecret, KindPersistentVolume, KindPersistentVolumeClaim,
      Option.isSome_iff_ne_none]

/-- The closed enumeration of kinds the decision function recognizes. -/
def supportedKinds : List String :=
  [KindPod, KindConfigMap, KindSecret, KindPersistentVolume, KindPersistentVolumeClaim,
    KindJob, KindPodDisruptionBudget, KindHorizontalPodAutoscaler]

/-- A resource-client lookup oracle whose get always reports not-found. -/
def getUNone : GetUnstructuredFn := fun _ _ _ _ => Except.ok none

/-- C5: a candidate whose kind is outside the supported enumeration makes the
decision function return the unsupported-kind error together with
delete=false. -/
theorem unsupported_kind_errors (d : DeterminerData) (getU : GetUnstructuredFn) (info : Info)
    (h : info.kind ∉ supportedKinds) :
    DetermineDeletion d getU info =
      (false, some ("unsupported kind: " ++ info.kind ++ "/" ++ info.name)) := by
  simp only [supportedKinds, List.mem_cons, List.not_mem_nil, or_false, not_or] at h
  obtain ⟨h1, h2, h3, h4, h5, h6, h7, h8⟩ := h
  simp [DetermineDeletion, beq_iff_eq, h1, h2, h3, h4, h5, h6, h7, h8]

/-- Witness for C5 at the concrete kind Deployment. -/
theorem unsupported_kind_errors_witness :
    DetermineDeletion (mkDeterminerData [] [] [] []) getUNone
        (Info.mk "Deployment" "dep" "default" Object.other) =
      (false, some ("unsupported kind: " ++ "Deployment" ++ "/" ++ "dep")) :=
  unsupported_kind_errors (mkDeterminerData [] [] [] []) getUNone
    (Info.mk "Deployment" "dep" "default" Object.other) (by decide)

/-- C4: for an HPA candidate that decodes, when the injected client lookup at
the scale-target coordinates (apiVersion, kind, name, in the HPA's own
namespace) behaves as `GetUnstructured` over a parse outcome and a dynamic
get outcome, the decision is delete=true exactly on a definitive not-found,
delete=false without error on found, and the transport error is propagated
with delete=false (as is an apiVersion parse error). -/
theorem hpa_rule (d : DeterminerData) (name ns : String) (hpa : HorizontalPodAutoscaler)
    (getU : GetUnstructuredFn) (parseGV : Except String GroupVersion)
    (dynamicGet : GroupVersion → APIResult Unstructured)
    (hclient : getU hpa.spec.scaleTargetRef.apiVersion hpa.spec.scaleTargetRef.kind
        hpa.spec.scaleTargetRef.name ns = GetUnstructured parseGV dynamicGet) :
    (∀ gv, parseGV = Except.ok gv →
      ((dynamicGet gv = APIResult.notFound →
          DetermineDeletion d getU
              (Info.mk KindHorizontalPodAutoscaler name ns
                (Object.horizontalPodAutoscaler hpa)) = (true, none)) ∧
        (∀ u, dynamicGet gv = APIResult.ok u →
          DetermineDeletion d getU
              (Info.mk KindHorizontalPodAutoscaler name ns
                (Object.horizontalPodAutoscaler hpa)) = (false, none)) ∧
        (∀ e, dynamicGet gv = APIResult.err e →
          DetermineDeletion d getU
              (Info.mk KindHorizontalPodAutoscaler name ns
                (Object.horizontalPodAutoscaler hpa)) = (false, some e)))) ∧
    (∀ e, parseGV = Except.error e →
      DetermineDeletion d getU
          (Info.mk KindHorizontalPodAutoscaler name ns
            (Object.horizontalPodAutoscaler hpa)) = (false, some e)) := by
  constructor
  · intro gv hgv
    refine ⟨?_, ?_, ?_⟩
    · intro hnf
      simp [DetermineDeletion, determineDeletionHorizontalPodAutoscaler,
        ObjectToHorizontalPodAutoscaler, KindHorizontalPodAutoscaler, KindPod, KindConfigMap,
        KindSecret, KindPersistentVolume, KindPersistentVolumeClaim, KindJob,
        KindPodDisruptionBudget, hclient, GetUnstructured, hgv, hnf]
    · intro u hu
      simp [DetermineDeletion, determineDeletionHorizontalPodAutoscaler,
        ObjectToHorizontalPodAutoscaler, KindHorizontalPodAutoscaler, KindPod, KindConfigMap,
        KindSecret, KindPersistentVolume, KindPersistentVolumeClaim, KindJob,
        KindPodDisruptionBudget, hclient, GetUnstructured, hgv, hu]
    · intro e he
      simp [DetermineDeletion, determineDeletionHorizontalPodAutoscaler,
        ObjectToHorizontalPodAutoscaler, KindHorizontalPodAutoscaler, KindPod, KindConfigMap,
        KindSecret, KindPersistentVolume, KindPersistentVolumeClaim, KindJob,
        KindPodDisruptionBudget, hclient, GetUnstructured, hgv, he]
  · intro e he
    simp [DetermineDeletion, determineDeletionHorizontalPodAutoscaler,
      ObjectToHorizontalPodAutoscaler, KindHorizontalPodAutoscaler, KindPod, KindConfigMap,
      KindSecret, KindPersistentVolume, KindPersistentVolumeClaim, KindJob,
      KindPodDisruptionBudget, hclient, GetUnstructured, he]

/-- An HPA sample targeting an apps/v1 Deployment named target-x. -/
def hpaSample : HorizontalPodAutoscaler :=
  { name := "hpa"
    spec := { scaleTargetRef := { apiVersion := "apps/v1", kind := "Deployment", name := "target-x" } } }

/-- Witness for C4: with a parse success and a not-found dynamic get, the HPA
is decided for deletion without error. -/
theorem hpa_rule_witness :
    DetermineDeletion (mkDeterminerData [] [] [] [])
        (fun _ _ _ _ => GetUnstructured (Except.ok (GroupVersion.mk "apps" "v1"))
          (fun _ => APIResult.notFound))
        (Info.mk KindHorizontalPodAutoscaler "hpa" "default"
          (Object.horizontalPodAutoscaler hpaSample)) = (true, none) :=
  ((hpa_rule (mkDeterminerData [] [] [] []) "hpa" "default" hpaSample
      (fun _ _ _ _ => GetUnstructured (Except.ok (GroupVersion.mk "apps" "v1"))
        (fun _ => APIResult.notFound))
      (Except.ok (GroupVersion.mk "apps" "v1")) (fun _ => APIResult.notFound) rfl).1
    (GroupVersion.mk "apps" "v1") rfl).1 rfl

/-- C6: for a PodDisruptionBudget candidate that decodes, a selector that
converts successfully decides delete exactly when no pod of the snapshot
matches it (without error), while a malformed selector produces the
invalid-label-selector error with delete=false. -/
theorem pdb_rule (d : DeterminerData) (getU : GetUnstructuredFn) (name ns : String)
    (pdb : PodDisruptionBudget) :
    (∀ sel, labelSelectorAsSelector pdb.spec.selector = Except.ok sel →
      (((DetermineDeletion d getU
            (Info.mk KindPodDisruptionBudget name ns (Object.podDisruptionBudget pdb))).fst =
          true) ↔
        ∀ pod ∈ d.pods, selectorMatches sel pod.labels = false) ∧
      (DetermineDeletion d getU
          (Info.mk KindPodDisruptionBudget name ns (Object.podDisruptionBudget pdb))).snd =
        none) ∧
    (∀ e, labelSelectorAsSelector pdb.spec.selector = Except.error e →
      DetermineDeletion d getU
          (Info.mk KindPodDisruptionBudget name ns (Object.podDisruptionBudget pdb)) =
        (false, some ("invalid label selector (" ++ pdb.name ++ "): " ++ e))) := by
  constructor
  · intro sel hsel
    constructor
    · simp [DetermineDeletion, determineDeletionPodDisruptionBudget,
        ObjectToPodDisruptionBudget, determineUsedPodDisruptionBudget, KindPodDisruptionBudget,
        KindPod, KindConfigMap, KindSecret, KindPersistentVolume, KindPersistentVolumeClaim,
        KindJob, hsel, List.any_eq_false]
    · simp [DetermineDeletion, determineDeletionPodDisruptionBudget,
        ObjectToPodDisruptionBudget, determineUsedPodDisruptionBudget, KindPodDisruptionBudget,
        KindPod, KindConfigMap, KindSecret, KindPersistentVolume, KindPersistentVolumeClaim,
        KindJob, hsel]
  · intro e he
    simp [DetermineDeletion, determineDeletionPodDisruptionBudget, ObjectToPodDisruptionBudget,
      determineUsedPodDisruptionBudget, KindPodDisruptionBudget, KindPod, KindConfigMap,
      KindSecret, KindPersistentVolume, KindPersistentVolumeClaim, KindJob, he]

/-- A PodDisruptionBudget selecting pods with label app=foo via the
equality-match map form. -/
def pdbSample : PodDisruptionBudget :=
  { name := "pdb"
    spec := { selector := some { matchLabels := [("app", "foo")], matchExpressions := [] } } }

/-- Witness for C6: the app=foo selector converts, and against an empty pod
snapshot the budget is decided for deletion without error. -/
theorem pdb_rule_witness :
    ((DetermineDeletion (mkDeterminerData [] [] [] []) getUNone
        (Info.mk KindPodDisruptionBudget "pdb" "default"
          (Object.podDisruptionBudget pdbSample))).fst = true ↔
      ∀ pod ∈ (mkDeterminerData [] [] [] []).pods,
        selectorMatches
          (Selector.requirements [LabelSelectorRequirement.mk "app" "In" ["foo"]])
          pod.labels = false) ∧
    (DetermineDeletion (mkDeterminerData [] [] [] []) getUNone
        (Info.mk KindPodDisruptionBudget "pdb" "default"
          (Object.podDisruptionBudget pdbSample))).snd = none :=
  (pdb_rule (mkDeterminerData [] [] [] []) getUNone "pdb" "default" pdbSample).1
    (Selector.requirements [LabelSelectorRequirement.mk "app" "In" ["foo"]]) (by rfl)

/-! ## Extensional characterization of the Secret usage index -/

/-- A pod spec references Secret `n` through its main containers (envFrom
secretRef or env valueFrom secretKeyRef) or its volumes (secret source or
projected secret source). -/
def PodSpecRefsSecret (spec : PodSpec) (n : String) : Prop :=
  (∃ c ∈ spec.containers,
      (∃ e ∈ c.envFrom, ∃ ref, e.secretRef = some ref ∧ ref.name = n) ∨
      (∃ e ∈ c.env, ∃ vf, e.valueFrom = some vf ∧
        ∃ ref, vf.secretKeyRef = some ref ∧ ref.name = n)) ∨
  (∃ v ∈ spec.volumes,
      (∃ s, v.secret = some s ∧ s.secretName = n) ∨
      (∃ proj, v.projected = some proj ∧
        ∃ src ∈ proj.sources, ∃ ref, src.secret = some ref ∧ ref.name = n))

/-- Secret `n` is used according to the kubectl-reap index sources: a pod
(imagePullSecrets or container/volume references), a ReplicaSet pod template
(container/volume references), or a ServiceAccount secrets entry. -/
def SecretUsed (pods : List Pod) (replicaSets : List ReplicaSet) (sas : List ServiceAccount)
    (n : String) : Prop :=
  (∃ pod ∈ pods,
    (∃ ref ∈ pod.spec.imagePullSecrets, ref.name = n) ∨ PodSpecRefsSecret pod.spec n) ∨
  (∃ rs ∈ replicaSets, PodSpecRefsSecret rs.spec.template.spec n) ∨
  (∃ sa ∈ sas, ∃ ref ∈ sa.secrets, ref.name = n)

lemma mem_containerSecretRefs (c : Container) (n : String) :
    n ∈ containerSecretRefs c ↔
      ((∃ e ∈ c.envFrom, ∃ ref, e.secretRef = some ref ∧ ref.name = n) ∨
       (∃ e ∈ c.env, ∃ vf, e.valueFrom = some vf ∧
         ∃ ref, vf.secretKeyRef = some ref ∧ ref.name = n)) := by
  simp [containerSecretRefs, List.mem_filterMap, Option.map_eq_some', Option.bind_eq_some]

lemma mem_volumeSecretRefs (v : Volume) (n : String) :
    n ∈ volumeSecretRefs v ↔
      ((∃ s, v.secret = some s ∧ s.secretName = n) ∨
       (∃ proj, v.projected = some proj ∧
         ∃ src ∈ proj.sources, ∃ ref, src.secret = some ref ∧ ref.name = n)) := by
  cases hs : v.secret <;> cases hp : v.projected <;>
    simp [volumeSecretRefs, hs, hp, List.mem_filterMap, Option.map_eq_some'] <;>
    aesop

lemma mem_podSpecSecretRefs (spec : PodSpec) (n : String) :
    n ∈ podSpecSecretRefs spec ↔ PodSpecRefsSecret spec n := by
  simp [podSpecSecretRefs, PodSpecRefsSecret, List.mem_flatMap, mem_containerSecretRefs,
    mem_volumeSecretRefs]

lemma mem_detectUsedSecrets (pods : List Pod) (replicaSets : List ReplicaSet)
    (sas : List ServiceAccount) (n : String) :
    n ∈ detectUsedSecrets pods replicaSets sas ↔ SecretUsed pods replicaSets sas n := by
  simp [detectUsedSecrets, SecretUsed, List.mem_flatMap, List.mem_map, mem_podSpecSecretRefs]

/-! ## C2: the Secret usage index versus the claim wording -/

/-- The Secret usage index exactly as claim C2 words it: names gathered from
container envFrom secretRef and env valueFrom secretKeyRef entries, pod
volume secret and projected-source secret references, every pod-level
imagePullSecrets entry, and every entry of each ServiceAccount secrets list —
with no other source. -/
def claimedSecretUsageIndex (pods : List Pod) (sas : List ServiceAccount) : List String :=
  pods.flatMap (fun pod =>
    pod.spec.imagePullSecrets.map (fun ref => ref.name) ++ podSpecSecretRefs pod.spec) ++
  sas.flatMap (fun sa => sa.secrets.map fun ref => ref.name)

/-- A ReplicaSet whose pod template (and nothing else anywhere) references
Secret rs-secret through a container envFrom secretRef. -/
def rsSecretOnly : ReplicaSet :=
  { name := "rs"
    spec :=
      { template :=
          { spec :=
              { initContainers := []
                containers :=
                  [{ name := "c"
                     env := []
                     envFrom := [{ configMapRef := none, secretRef := some { name := "rs-secret" } }] }]
                volumes := []
                imagePullSecrets := [] } } } }

/-- C2 counterexample: with no pods and no ServiceAccounts but one ReplicaSet
whose template references rs-secret, the claimed index (built from pods and
ServiceAccounts only) does not contain rs-secret, yet the determiner does not
decide the Secret for deletion — so delete=true is not equivalent to absence
from the index claim C2 describes. -/
theorem secret_index_claim_counterexample :
    ¬ (((DetermineDeletion (mkDeterminerData [] [rsSecretOnly] [] []) getUNone
          (Info.mk KindSecret "rs-secret" "default" Object.other)).fst = true) ↔
        ¬ "rs-secret" ∈ claimedSecretUsageIndex [] []) := by
  decide

/-- C2 amended: for every Secret candidate, the determiner decides deletion
exactly when the name is referenced by no pod (imagePullSecrets, container
envFrom secretRef, env valueFrom secretKeyRef, volume secret, projected
secret source), no ReplicaSet pod template (the same container and volume
shapes), and no ServiceAccount secrets entry; and no error is returned. -/
theorem secret_rule_amended (pods : List Pod) (replicaSets : List ReplicaSet)
    (sas : List ServiceAccount) (pvcs : List PersistentVolumeClaim) (getU : GetUnstructuredFn)
    (name ns : String) (obj : Object) :
    (((DetermineDeletion (mkDeterminerData pods replicaSets sas pvcs) getU
          (Info.mk KindSecret name ns obj)).fst = true) ↔
      ¬ SecretUsed pods replicaSets sas name) ∧
    (DetermineDeletion (mkDeterminerData pods replicaSets sas pvcs) getU
        (Info.mk KindSecret name ns obj)).snd = none := by
  constructor
  · simp [DetermineDeletion, determineDeletionSecret, mkDeterminerData, KindSecret, KindPod,
      KindConfigMap, List.elem_iff, mem_detectUsedSecrets]
  · simp [DetermineDeletion, determineDeletionSecret, KindSecret, KindPod, KindConfigMap]

/-! ## C9: fetch trace of determiner construction -/

/-- A list client whose four operations all succeed with empty lists. -/
def listClientEmptyOk : ListClient :=
  { listPodsRes := Except.ok []
    listReplicaSetsRes := Except.ok []
    listPersistentVolumeClaimsRes := Except.ok []
    listServiceAccountsRes := Except.ok [] }

/-- C9: construction fetches ServiceAccounts only for invocations whose kinds
include Secret — unconditionally in one direction, and exactly then whenever
construction completes successfully. -/
theorem new_serviceaccounts_iff_secret (client : ListClient) (kinds : List String) :
    (FetchOp.listServiceAccounts ∈ (New client kinds).snd → KindSecret ∈ kinds) ∧
    ((New client kinds).fst.isOk = true →
      (KindSecret ∈ kinds ↔ FetchOp.listServiceAccounts ∈ (New client kinds).snd)) := by
  obtain ⟨p, rs, pvc, sa⟩ := client
  unfold New
  by_cases h1 : KindConfigMap ∈ kinds <;>
    by_cases h2 : KindSecret ∈ kinds <;>
      by_cases h3 : KindPersistentVolume ∈ kinds <;>
        by_cases h4 : KindPersistentVolumeClaim ∈ kinds <;>
          by_cases h5 : KindPodDisruptionBudget ∈ kinds <;>
            cases p <;> cases rs <;> cases pvc <;> cases sa <;>
              simp_all [List.contains, List.elem_iff, Except.isOk, Except.toBool]

/-- Witness for C9: on a Secret-only invocation with an all-successful
client, construction succeeds and the ServiceAccounts fetch is equivalent to
(and so, performed because of) the Secret kind being present. -/
theorem new_serviceaccounts_iff_secret_witness :
    KindSecret ∈ [KindSecret] ∧
      (KindSecret ∈ [KindSecret] ↔
        FetchOp.listServiceAccounts ∈ (New listClientEmptyOk [KindSecret]).snd) :=
  ⟨(new_serviceaccounts_iff_secret listClientEmptyOk [KindSecret]).1 (by decide),
    (new_serviceaccounts_iff_secret listClientEmptyOk [KindSecret]).2 (by decide)⟩

/-! ## C10: init containers are invisible to the usage indices -/

/-- Replace the init containers of a pod, leaving everything else as is. -/
def withInitContainers (pod : Pod) (cs : List Container) : Pod :=
  { pod with spec := { pod.spec with initContainers := cs } }

lemma podSpecConfigMapRefs_withInit (pod : Pod) (cs : List Container) :
    podSpecConfigMapRefs (withInitContainers pod cs).spec = podSpecConfigMapRefs pod.spec := rfl

lemma podSpecSecretRefs_withInit (pod : Pod) (cs : List Container) :
    podSpecSecretRefs (withInitContainers pod cs).spec = podSpecSecretRefs pod.spec := rfl

lemma withInitContainers_imagePullSecrets (pod : Pod) (cs : List Container) :
    (withInitContainers pod cs).spec.imagePullSecrets = pod.spec.imagePullSecrets := rfl

lemma detectUsedConfigMaps_map_withInit (pods : List Pod) (replicaSets : List ReplicaSet)
    (f : Pod → List Container) :
    detectUsedConfigMaps (pods.map fun pod => withInitContainers pod (f pod)) replicaSets =
      detectUsedConfigMaps pods replicaSets := by
  unfold detectUsedConfigMaps
  congr 1
  induction pods with
  | nil => rfl
  | cons p ps ih => simp only [List.map_cons, List.flatMap_cons, podSpecConfigMapRefs_withInit, ih]

lemma detectUsedSecrets_map_withInit (pods : List Pod) (replicaSets : List ReplicaSet)
    (sas : List ServiceAccount) (f : Pod → List Container) :
    detectUsedSecrets (pods.map fun pod => withInitContainers pod (f pod)) replicaSets sas =
      detectUsedSecrets pods replicaSets sas := by
  unfold detectUsedSecrets
  congr 1
  induction pods with
  | nil => rfl
  | cons p ps ih =>
    simp only [List.map_cons, List.flatMap_cons, podSpecSecretRefs_withInit,
      withInitContainers_imagePullSecrets, List.append_cancel_right_eq] at ih ⊢
    simp [ih]

/-- A pod whose only ConfigMap reference (init-cm, via env configMapKeyRef)
and only Secret reference (init-secret, via envFrom secretRef) both sit in an
init container; its main containers, volumes and imagePullSecrets are
empty. -/
def podInitOnlyRefs : Pod :=
  { name := "init-pod"
    labels := []
    spec :=
      { initContainers :=
          [{ name := "ic"
             env := [{ name := "E"
                       valueFrom := some { configMapKeyRef := some { name := "init-cm" }
                                           secretKeyRef := none } }]
             envFrom := [{ configMapRef := none, secretRef := some { name := "init-secret" } }] }]
        containers := []
        volumes := []
        imagePullSecrets := [] }
    status := { phase := "Running" } }

/-- C10: the ConfigMap and Secret usage indices are unchanged under any
replacement of every pod's init containers, and a ConfigMap or Secret
referenced exclusively from init containers is decided for deletion without
error. -/
theorem init_containers_ignored :
    (∀ (pods : List Pod) (replicaSets : List ReplicaSet) (sas : List ServiceAccount)
        (f : Pod → List Container),
      detectUsedConfigMaps (pods.map fun pod => withInitContainers pod (f pod)) replicaSets =
          detectUsedConfigMaps pods replicaSets ∧
        detectUsedSecrets (pods.map fun pod => withInitContainers pod (f pod)) replicaSets sas =
          detectUsedSecrets pods replicaSets sas) ∧
    DetermineDeletion (mkDeterminerData [podInitOnlyRefs] [] [] []) getUNone
        (Info.mk KindConfigMap "init-cm" "default" Object.other) = (true, none) ∧
    DetermineDeletion (mkDeterminerData [podInitOnlyRefs] [] [] []) getUNone
        (Info.mk KindSecret "init-secret" "default" Object.other) = (true, none) := by
  refine ⟨fun pods replicaSets sas f =>
    ⟨detectUsedConfigMaps_map_withInit pods replicaSets f,
      detectUsedSecrets_map_withInit pods replicaSets sas f⟩, by decide, by decide⟩

end KubectlReap
